import Mathlib

/-!
Verification of the licences-catalogue data-access layer (Policy Store).

The repository's data-access module `controller/db_access.py` is not present in
the sources (only its test suite `tests/test_db_access.py` and a trivial routes
module are), so the store and its operations below are modelled from the
specification's description of the data model (§3), the operation surface
(§4), the storage schema (§6) and the error model (§7), cross-checked against
the behaviours exercised by the test suite.  Each modelled definition says so
in its doc comment.
-/

namespace PolicyStore

/-- Modelled from the spec (§7): the three error kinds of the data-access
layer — InvalidInput (malformed URI, disallowed attribute name, disallowed
rule type), Conflict (duplicate unique key), NotFound (referenced entity does
not exist). -/
inductive DBError where
  | InvalidInput : DBError
  | Conflict : DBError
  | NotFound : DBError
deriving DecidableEq

/-- Modelled from the test suite (`pytest.raises(ValueError)` around every
failing operation, `tests/test_db_access.py`): each error kind surfaces as
the Python exception class `ValueError`. -/
def pythonExceptionClass : DBError → String := fun _ => "ValueError"

/-- Python-style values returned by the read operations: ints, strings,
`None`, lists and dicts (a dict is an ordered association list of
string-keyed entries). -/
inductive Value where
  | vint : Nat → Value
  | vstr : String → Value
  | vnull : Value
  | vlist : List Value → Value
  | vdict : List (String × Value) → Value

/-- Modelled from the spec (§3, §6): one row of the POLICY table.  Identity is
an auto-assigned integer ID, the unique business key is the URI, and the
twelve optional attribute columns are the fixed settable attribute set. -/
structure PolicyRow where
  id : Nat
  uri : String
  ptype : Option String := none
  label : Option String := none
  jurisdiction : Option String := none
  legal_code : Option String := none
  has_version : Option String := none
  language : Option String := none
  see_also : Option String := none
  same_as : Option String := none
  comment : Option String := none
  logo : Option String := none
  created : Option String := none
  status : Option String := none
deriving DecidableEq

/-- Modelled from the spec (§3, §6): one row of the ASSET table; `policy_id`
is the non-null foreign key to the owning Policy. -/
structure AssetRow where
  id : Nat
  uri : String
  policy_id : Nat
deriving DecidableEq

/-- Modelled from the spec (§3, §6): one row of the RULE table. -/
structure RuleRow where
  id : Nat
  rtype : String
deriving DecidableEq

/-- Modelled from the spec (§3, §6): one row of the PARTY table. -/
structure PartyRow where
  id : Nat
  uri : String
deriving DecidableEq

/-- Modelled from the spec (§3, §6): one row of the pre-seeded ACTION
reference table (URI, LABEL, DEFINITION). -/
structure ActionRow where
  id : Nat
  label : String
  uri : String
  definition : String
deriving DecidableEq

/-- Modelled from the spec (§6): the whole relational store — the five entity
tables, the four association tables (each a list of (left id, right id) pairs
in insertion order), and the auto-increment counters.  Lists keep insertion
order, as the listing operations are specified to. -/
structure Store where
  policies : List PolicyRow
  assets : List AssetRow
  rules : List RuleRow
  parties : List PartyRow
  actions : List ActionRow
  policy_has_rule : List (Nat × Nat)
  rule_has_action : List (Nat × Nat)
  rule_has_assignor : List (Nat × Nat)
  rule_has_assignee : List (Nat × Nat)
  nextPolicyId : Nat
  nextAssetId : Nat
  nextRuleId : Nat
  nextPartyId : Nat
deriving DecidableEq

/-- Modelled from the spec (§6): the schema-initialization routine pre-seeds
the ACTION reference table (that routine, `create_database.py`, is not in the
sources); one representative ODRL action row suffices for this development. -/
def seed_actions : List ActionRow :=
  [{ id := 1, label := "Distribute",
     uri := "http://www.w3.org/ns/odrl/2/distribute",
     definition := "To supply the asset to a third party." }]

/-- The store right after schema initialization: empty entity and association
tables apart from the seeded ACTION reference table; every auto-increment
counter starts at 1. -/
def init_store : Store :=
  { policies := [], assets := [], rules := [], parties := [],
    actions := seed_actions,
    policy_has_rule := [], rule_has_action := [],
    rule_has_assignor := [], rule_has_assignee := [],
    nextPolicyId := 1, nextAssetId := 1, nextRuleId := 1, nextPartyId := 1 }

/-- Split a character sequence at its first colon: the scheme part and the
remainder, or `none` when there is no colon. -/
def scheme_split : List Char → Option (List Char × List Char)
  | [] => none
  | c :: cs =>
    if c = ':' then some ([], cs)
    else
      match scheme_split cs with
      | some (sch, rest) => some (c :: sch, rest)
      | none => none

/-- Modelled from the spec (§4.6): `is_valid_uri(s)` — the string must parse
as an absolute URI, that is a non-empty all-letter scheme followed by a colon
and a non-empty remainder, with no whitespace anywhere. -/
def is_valid_uri (s : String) : Bool :=
  match scheme_split s.data with
  | none => false
  | some (sch, rest) =>
      !sch.isEmpty && sch.all Char.isAlpha && !rest.isEmpty &&
      s.data.all (fun c => !c.isWhitespace)

/-- Modelled from the spec (§3, §9): the fixed enumeration of permitted
rule-type URIs (the ODRL rule kinds; the spec names permission explicitly). -/
def permitted_rule_types : List String :=
  ["http://www.w3.org/ns/odrl/2/permission",
   "http://www.w3.org/ns/odrl/2/prohibition",
   "http://www.w3.org/ns/odrl/2/duty"]

/-- Modelled from the spec (§3, §4.1): the fixed set of policy attributes
settable after creation (URI and ID are excluded/immutable). -/
def permitted_policy_attributes : List String :=
  ["TYPE", "LABEL", "JURISDICTION", "LEGAL_CODE", "HAS_VERSION", "LANGUAGE",
   "SEE_ALSO", "SAME_AS", "COMMENT", "LOGO", "CREATED", "STATUS"]

/-- Read one named attribute column of a POLICY row. -/
def PolicyRow.getColumn (r : PolicyRow) : String → Option String
  | "TYPE" => r.ptype
  | "LABEL" => r.label
  | "JURISDICTION" => r.jurisdiction
  | "LEGAL_CODE" => r.legal_code
  | "HAS_VERSION" => r.has_version
  | "LANGUAGE" => r.language
  | "SEE_ALSO" => r.see_also
  | "SAME_AS" => r.same_as
  | "COMMENT" => r.comment
  | "LOGO" => r.logo
  | "CREATED" => r.created
  | "STATUS" => r.status
  | _ => none

/-- Overwrite one named attribute column of a POLICY row. -/
def PolicyRow.setColumn (r : PolicyRow) (a v : String) : PolicyRow :=
  match a with
  | "TYPE" => { r with ptype := some v }
  | "LABEL" => { r with label := some v }
  | "JURISDICTION" => { r with jurisdiction := some v }
  | "LEGAL_CODE" => { r with legal_code := some v }
  | "HAS_VERSION" => { r with has_version := some v }
  | "LANGUAGE" => { r with language := some v }
  | "SEE_ALSO" => { r with see_also := some v }
  | "SAME_AS" => { r with same_as := some v }
  | "COMMENT" => { r with comment := some v }
  | "LOGO" => { r with logo := some v }
  | "CREATED" => { r with created := some v }
  | "STATUS" => { r with status := some v }
  | _ => r

/-- A fresh POLICY row with only ID and URI populated. -/
def blank_policy_row (i : Nat) (u : String) : PolicyRow :=
  { id := i, uri := u }

/-- Modelled from the spec (§4.1): `policy_exists(uri)` — membership test on
the POLICY table by URI. -/
def policy_exists (u : String) (s : Store) : Bool :=
  (s.policies.find? (fun r => r.uri == u)).isSome

/-- Modelled from the spec (§4.1): `get_all_policies()` — the policy URIs in
insertion order. -/
def get_all_policies (s : Store) : List String :=
  s.policies.map (fun r => r.uri)

/-- Modelled from the spec (§4.1): `create_policy(uri)` — InvalidInput on a
syntactically invalid URI, Conflict on a duplicate URI, otherwise insert a
row with only URI populated and return the new integer ID. -/
def create_policy (u : String) (s : Store) : Except DBError (Nat × Store) :=
  if !is_valid_uri u then .error .InvalidInput
  else if policy_exists u s then .error .Conflict
  else
    .ok (s.nextPolicyId,
      { s with policies := s.policies ++ [blank_policy_row s.nextPolicyId u],
               nextPolicyId := s.nextPolicyId + 1 })

/-- Modelled from the spec (§4.1, §3 invariants): `delete_policy(uri)` —
NotFound when no policy has that URI; otherwise remove the policy row,
cascade-delete its assets, and drop its POLICY_HAS_RULE join rows (rules are
detached, not deleted). -/
def delete_policy (u : String) (s : Store) : Except DBError Store :=
  if !policy_exists u s then .error .NotFound
  else
    let pids := (s.policies.filter (fun r => r.uri == u)).map (fun r => r.id)
    .ok { s with
      policies := s.policies.filter (fun r => !(r.uri == u)),
      assets := s.assets.filter (fun a => !(pids.contains a.policy_id)),
      policy_has_rule := s.policy_has_rule.filter (fun j => !(pids.contains j.1)) }

/-- Modelled from the spec (§4.1): `set_policy_attribute(uri, attribute,
value)` — NotFound when the policy does not exist, InvalidInput when the
attribute is outside the fixed allowed set, otherwise update that single
column of the policy's row. -/
def set_policy_attribute (u a v : String) (s : Store) : Except DBError Store :=
  if !policy_exists u s then .error .NotFound
  else if !permitted_policy_attributes.contains a then .error .InvalidInput
  else
    .ok { s with
      policies := s.policies.map (fun r => if r.uri == u then r.setColumn a v else r) }

/-- Modelled from the spec (§4.2): `asset_exists(uri)`. -/
def asset_exists (u : String) (s : Store) : Bool :=
  (s.assets.find? (fun r => r.uri == u)).isSome

/-- Modelled from the spec (§4.2): `get_all_assets()` — asset URIs in
insertion order. -/
def get_all_assets (s : Store) : List String :=
  s.assets.map (fun r => r.uri)

/-- Modelled from the spec (§4.2): `add_asset(uri, policy_uri)` — NotFound
when the policy URI does not resolve, Conflict when the asset URI already
exists, otherwise insert with the asset's foreign key set to the policy's
internal ID and return the new integer ID. -/
def add_asset (u p : String) (s : Store) : Except DBError (Nat × Store) :=
  match s.policies.find? (fun r => r.uri == p) with
  | none => .error .NotFound
  | some pr =>
    if asset_exists u s then .error .Conflict
    else
      .ok (s.nextAssetId,
        { s with assets := s.assets ++ [{ id := s.nextAssetId, uri := u, policy_id := pr.id }],
                 nextAssetId := s.nextAssetId + 1 })

/-- Modelled from the spec (§4.2): `get_asset(uri)` — NotFound when absent,
otherwise a mapping of ID, URI and POLICY_ID. -/
def get_asset (u : String) (s : Store) : Except DBError Value :=
  match s.assets.find? (fun r => r.uri == u) with
  | none => .error .NotFound
  | some r =>
    .ok (.vdict [("ID", .vint r.id), ("URI", .vstr r.uri), ("POLICY_ID", .vint r.policy_id)])

/-- Modelled from the spec (§4.3): `rule_exists(id)` — plain membership test,
false (not an error) for unknown IDs. -/
def rule_exists (i : Nat) (s : Store) : Bool :=
  (s.rules.find? (fun r => r.id == i)).isSome

/-- Modelled from the spec (§4.3): `create_rule(type_uri)` — InvalidInput
when the type is outside the permitted rule-type enumeration, otherwise
insert and return the new integer ID. -/
def create_rule (t : String) (s : Store) : Except DBError (Nat × Store) :=
  if !permitted_rule_types.contains t then .error .InvalidInput
  else
    .ok (s.nextRuleId,
      { s with rules := s.rules ++ [{ id := s.nextRuleId, rtype := t }],
               nextRuleId := s.nextRuleId + 1 })

/-- Modelled from the spec (§4.3): `delete_rule(id)` — Conflict while the
rule is attached to any policy; otherwise delete the rule row and explicitly
clear its rows in all three of RULE_HAS_ACTION, RULE_HAS_ASSIGNOR and
RULE_HAS_ASSIGNEE. -/
def delete_rule (i : Nat) (s : Store) : Except DBError Store :=
  if (s.policy_has_rule.find? (fun j => j.2 == i)).isSome then .error .Conflict
  else
    .ok { s with
      rules := s.rules.filter (fun r => !(r.id == i)),
      rule_has_action := s.rule_has_action.filter (fun j => !(j.1 == i)),
      rule_has_assignor := s.rule_has_assignor.filter (fun j => !(j.1 == i)),
      rule_has_assignee := s.rule_has_assignee.filter (fun j => !(j.1 == i)) }

/-- Modelled from the spec (§4.3): `add_rule_to_policy(rule_id, policy_uri)`
— NotFound when the rule or the policy does not exist, otherwise append the
join row. -/
def add_rule_to_policy (i : Nat) (p : String) (s : Store) : Except DBError Store :=
  if !rule_exists i s then .error .NotFound
  else match s.policies.find? (fun r => r.uri == p) with
  | none => .error .NotFound
  | some pr => .ok { s with policy_has_rule := s.policy_has_rule ++ [(pr.id, i)] }

/-- Modelled from the spec (§4.3): `remove_rule_from_policy(rule_id,
policy_uri)` — NotFound when the rule or the policy does not exist, otherwise
delete the join row. -/
def remove_rule_from_policy (i : Nat) (p : String) (s : Store) : Except DBError Store :=
  if !rule_exists i s then .error .NotFound
  else match s.policies.find? (fun r => r.uri == p) with
  | none => .error .NotFound
  | some pr =>
    .ok { s with
      policy_has_rule := s.policy_has_rule.filter (fun j => !(j.1 == pr.id && j.2 == i)) }

/-- Modelled from the spec (§4.4): `add_action_to_rule(rule_id, action_uri)`
— NotFound when the rule does not exist or the action URI is not in the
ACTION reference table, otherwise append the join row. -/
def add_action_to_rule (i : Nat) (a : String) (s : Store) : Except DBError Store :=
  if !rule_exists i s then .error .NotFound
  else match s.actions.find? (fun r => r.uri == a) with
  | none => .error .NotFound
  | some ar => .ok { s with rule_has_action := s.rule_has_action ++ [(i, ar.id)] }

/-- Modelled from the spec (§4.5): `party_exists(uri)`. -/
def party_exists (u : String) (s : Store) : Bool :=
  (s.parties.find? (fun r => r.uri == u)).isSome

/-- Modelled from the spec (§4.5): `create_party(uri)` — InvalidInput on an
invalid URI, Conflict on a duplicate, otherwise insert and return the ID. -/
def create_party (u : String) (s : Store) : Except DBError (Nat × Store) :=
  if !is_valid_uri u then .error .InvalidInput
  else if party_exists u s then .error .Conflict
  else
    .ok (s.nextPartyId,
      { s with parties := s.parties ++ [{ id := s.nextPartyId, uri := u }],
               nextPartyId := s.nextPartyId + 1 })

/-- Modelled from the spec (§4.5): `get_party_id(uri)` — NotFound when
absent. -/
def get_party_id (u : String) (s : Store) : Except DBError Nat :=
  match s.parties.find? (fun r => r.uri == u) with
  | none => .error .NotFound
  | some r => .ok r.id

/-- Modelled from the spec (§4.5): `add_assignor_to_rule(party_uri, rule_id)`
— NotFound when the rule or the party does not exist, otherwise append the
join row. -/
def add_assignor_to_rule (u : String) (i : Nat) (s : Store) : Except DBError Store :=
  if !rule_exists i s then .error .NotFound
  else match s.parties.find? (fun r => r.uri == u) with
  | none => .error .NotFound
  | some pr => .ok { s with rule_has_assignor := s.rule_has_assignor ++ [(i, pr.id)] }

/-- Modelled from the spec (§4.5): `add_assignee_to_rule(party_uri, rule_id)`
— NotFound when the rule or the party does not exist, otherwise append the
join row. -/
def add_assignee_to_rule (u : String) (i : Nat) (s : Store) : Except DBError Store :=
  if !rule_exists i s then .error .NotFound
  else match s.parties.find? (fun r => r.uri == u) with
  | none => .error .NotFound
  | some pr => .ok { s with rule_has_assignee := s.rule_has_assignee ++ [(i, pr.id)] }

/-- The ACTION row projected to the full attribute mapping
(ID, LABEL, URI, DEFINITION). -/
def action_dict (a : ActionRow) : Value :=
  .vdict [("ID", .vint a.id), ("LABEL", .vstr a.label),
          ("URI", .vstr a.uri), ("DEFINITION", .vstr a.definition)]

/-- One rule entry of a `get_policy` result: the rule's ID and TYPE, its
actions (full attribute projection, join order), and its assignor and
assignee party URIs as flat string lists (join order).  Join semantics: a
join row contributes only when the referenced row exists. -/
def rule_dict (ru : RuleRow) (s : Store) : Value :=
  let acts := s.rule_has_action.filterMap (fun j =>
    if j.1 == ru.id then (s.actions.find? (fun a => a.id == j.2)).map action_dict else none)
  let assignors := s.rule_has_assignor.filterMap (fun j =>
    if j.1 == ru.id then (s.parties.find? (fun p => p.id == j.2)).map (fun p => Value.vstr p.uri)
    else none)
  let assignees := s.rule_has_assignee.filterMap (fun j =>
    if j.1 == ru.id then (s.parties.find? (fun p => p.id == j.2)).map (fun p => Value.vstr p.uri)
    else none)
  .vdict [("ID", .vint ru.id), ("TYPE", .vstr ru.rtype),
          ("ACTIONS", .vlist acts), ("ASSIGNORS", .vlist assignors),
          ("ASSIGNEES", .vlist assignees)]

/-- An Option String column rendered as a Python value (`None` for NULL). -/
def opt_value : Option String → Value
  | none => .vnull
  | some v => .vstr v

/-- The full mapping `get_policy` returns for the POLICY row `r`: every
policy column plus the RULES list built from the POLICY_HAS_RULE join rows in
insertion order. -/
def policy_dict (r : PolicyRow) (s : Store) : Value :=
  let rules := s.policy_has_rule.filterMap (fun j =>
    if j.1 == r.id then
      (s.rules.find? (fun ru => ru.id == j.2)).map (fun ru => rule_dict ru s)
    else none)
  .vdict
    [("ID", .vint r.id), ("URI", .vstr r.uri),
     ("TYPE", opt_value r.ptype), ("LABEL", opt_value r.label),
     ("JURISDICTION", opt_value r.jurisdiction), ("LEGAL_CODE", opt_value r.legal_code),
     ("HAS_VERSION", opt_value r.has_version), ("LANGUAGE", opt_value r.language),
     ("SEE_ALSO", opt_value r.see_also), ("SAME_AS", opt_value r.same_as),
     ("COMMENT", opt_value r.comment), ("LOGO", opt_value r.logo),
     ("CREATED", opt_value r.created), ("STATUS", opt_value r.status),
     ("RULES", .vlist rules)]

/-- Modelled from the spec (§4.1): `get_policy(uri)` — NotFound when absent;
otherwise all policy columns plus a RULES list holding, in join insertion
order, one entry per attached rule with its nested ACTIONS and flat
ASSIGNORS and ASSIGNEES lists. -/
def get_policy (u : String) (s : Store) : Except DBError Value :=
  match s.policies.find? (fun r => r.uri == u) with
  | none => .error .NotFound
  | some r => .ok (policy_dict r s)

/-! ### Shape of `get_policy` results

Decidable checkers for the dictionary shapes the spec promises, used to state
the claims about `get_policy` without restating its construction. -/

/-- Ordered key lookup in a dict body. -/
def lookupKey (k : String) : List (String × Value) → Option Value
  | [] => none
  | (k', v) :: rest => if k' == k then some v else lookupKey k rest

/-- The fixed policy attribute set of the spec (§3, §8), in result order. -/
def policy_attribute_keys : List String :=
  ["ID", "URI", "TYPE", "LABEL", "JURISDICTION", "LEGAL_CODE", "HAS_VERSION",
   "LANGUAGE", "SEE_ALSO", "SAME_AS", "COMMENT", "LOGO", "CREATED", "STATUS"]

/-- Is the value a plain string (a flat URI entry rather than an object)? -/
def is_str_value : Value → Bool
  | .vstr _ => true
  | _ => false

/-- An action entry must be a mapping with exactly ID, LABEL, URI and
DEFINITION. -/
def action_entry_ok : Value → Bool
  | .vdict d => d.map Prod.fst == ["ID", "LABEL", "URI", "DEFINITION"]
  | _ => false

/-- A rule entry must be a mapping carrying ID and TYPE plus an ACTIONS list
of action mappings and flat ASSIGNORS and ASSIGNEES string lists. -/
def rule_entry_ok : Value → Bool
  | .vdict d =>
    (d.map Prod.fst == ["ID", "TYPE", "ACTIONS", "ASSIGNORS", "ASSIGNEES"]) &&
    (match lookupKey "ACTIONS" d with
     | some (.vlist l) => l.all action_entry_ok
     | _ => false) &&
    (match lookupKey "ASSIGNORS" d with
     | some (.vlist l) => l.all is_str_value
     | _ => false) &&
    (match lookupKey "ASSIGNEES" d with
     | some (.vlist l) => l.all is_str_value
     | _ => false)
  | _ => false

/-- A `get_policy` result must be a mapping with exactly the fixed policy
attribute keys plus RULES, whose RULES entries are well-shaped rule
mappings. -/
def policy_result_ok : Value → Bool
  | .vdict d =>
    (d.map Prod.fst == policy_attribute_keys ++ ["RULES"]) &&
    (match lookupKey "RULES" d with
     | some (.vlist l) => l.all rule_entry_ok
     | _ => false)
  | _ => false

/-- The integer ID a rule entry carries, when it is a mapping with one. -/
def entry_id : Value → Option Nat
  | .vdict rd =>
    match lookupKey "ID" rd with
    | some (.vint i) => some i
    | _ => none
  | _ => none

/-- The IDs carried by the RULES entries of a `get_policy` result, in list
order. -/
def rule_ids_of (v : Value) : List Nat :=
  match v with
  | .vdict d =>
    match lookupKey "RULES" d with
    | some (.vlist l) => l.filterMap entry_id
    | _ => []
  | _ => []

/-- The rule IDs attached to the policy with URI `u`, in join insertion
order, keeping only IDs that resolve to an existing rule (join semantics). -/
def linked_rule_ids (u : String) (s : Store) : List Nat :=
  match s.policies.find? (fun r => r.uri == u) with
  | none => []
  | some pr =>
    s.policy_has_rule.filterMap (fun j =>
      if j.1 == pr.id && rule_exists j.2 s then some j.2 else none)

/-! ### Concrete scenario stores

The end-to-end scenario of spec §8, run through the operations themselves:
create a policy, create a permission rule and link it, attach the distribute
action, create two parties and attach them as assignor and assignee, and add
an asset under the policy. -/

/-- The §8 scenario, as the operations' composition. -/
def scenario_result : Except DBError Store := do
  let (_, s1) ← create_policy "https://example.com#policy" init_store
  let (rid, s2) ← create_rule "http://www.w3.org/ns/odrl/2/permission" s1
  let s3 ← add_rule_to_policy rid "https://example.com#policy" s2
  let s4 ← add_action_to_rule rid "http://www.w3.org/ns/odrl/2/distribute" s3
  let (_, s5) ← create_party "https://example.com#assignor" s4
  let (_, s6) ← create_party "https://example.com#assignee" s5
  let s7 ← add_assignor_to_rule "https://example.com#assignor" rid s6
  let s8 ← add_assignee_to_rule "https://example.com#assignee" rid s7
  let (_, s9) ← add_asset "https://example.com#asset" "https://example.com#policy" s8
  pure s9

/-- The populated store the §8 scenario produces. -/
def scenario_store : Store :=
  match scenario_result with
  | .ok s => s
  | .error _ => init_store

/-- A store holding a single rule attached to no policy. -/
def lone_rule_store : Store :=
  match create_rule "http://www.w3.org/ns/odrl/2/permission" init_store with
  | .ok (_, s) => s
  | .error _ => init_store

/-- The store after the very first `create_policy` on a fresh database. -/
def first_policy_store : Store :=
  match create_policy "https://example.com#test" init_store with
  | .ok (_, s) => s
  | .error _ => init_store

/-- The scenario store after adding a second asset under the policy. -/
def second_asset_store : Store :=
  match add_asset "https://example.com#asset2" "https://example.com#policy" scenario_store with
  | .ok (_, s) => s
  | .error _ => init_store

/-! ### Shared helper lemmas -/

/-- A `Bool`-valued existence check that is `false` yields `find? = none`. -/
theorem find?_eq_none_of_isSome_false {α : Type} {l : List α} {p : α → Bool}
    (h : (l.find? p).isSome = false) : l.find? p = none := by
  cases hf : l.find? p with
  | none => rfl
  | some x => rw [hf] at h; simp at h

/-- Every element a filterMap of guarded mapped lookups produces satisfies a
pointwise-guaranteed predicate. -/
theorem all_filterMap_guard_map {α β γ : Type} (l : List α) (c : α → Bool)
    (g : α → Option β) (h : β → γ) (p : γ → Bool) (hp : ∀ b, p (h b) = true) :
    (l.filterMap (fun j => if c j then (g j).map h else none)).all p = true := by
  rw [List.all_eq_true]
  intro x hx
  rcases List.mem_filterMap.mp hx with ⟨j, _, hj⟩
  by_cases hc : c j
  · rw [if_pos hc] at hj
    rcases Option.map_eq_some'.mp hj with ⟨b, _, rfl⟩
    exact hp b
  · rw [if_neg hc] at hj
    cases hj

/-! ### Claims -/

/-- C4: `create_policy(u)` fails with InvalidInput when `u` is not a
syntactically valid URI; fails with Conflict when a Policy with URI `u`
already exists; otherwise inserts a row with only URI populated, returns the
new integer ID, and afterwards `policy_exists u` is true. -/
theorem create_policy_spec (s : Store) (u : String) :
    (is_valid_uri u = false → create_policy u s = .error .InvalidInput) ∧
    (is_valid_uri u = true → policy_exists u s = true →
      create_policy u s = .error .Conflict) ∧
    (is_valid_uri u = true → policy_exists u s = false →
      ∃ s', create_policy u s = .ok (s.nextPolicyId, s') ∧
        policy_exists u s' = true ∧
        s'.policies = s.policies ++ [blank_policy_row s.nextPolicyId u] ∧
        ∀ b ∈ permitted_policy_attributes,
          (blank_policy_row s.nextPolicyId u).getColumn b = none) := by
  refine ⟨fun h1 => ?_, fun h1 h2 => ?_, fun h1 h2 => ?_⟩
  · simp [create_policy, h1]
  · simp [create_policy, h1, h2]
  · refine ⟨{ s with policies := s.policies ++ [blank_policy_row s.nextPolicyId u], nextPolicyId := s.nextPolicyId + 1 }, ?_, ?_, rfl, ?_⟩
    · rw [create_policy, if_neg (by simp [h1]), if_neg (by simp [h2])]
    · refine (List.find?_isSome).mpr ⟨blank_policy_row s.nextPolicyId u, ?_, ?_⟩
      · simp
      · simp [blank_policy_row]
    · intro b hb
      fin_cases hb <;> rfl

/-- C5: `delete_policy(u)` fails with NotFound when no Policy with URI `u`
exists; it does not silently no-op. -/
theorem delete_policy_not_found (s : Store) (u : String)
    (h : policy_exists u s = false) :
    delete_policy u s = .error .NotFound := by
  simp [delete_policy, h]

/-- C6: `create_rule(t)` fails with InvalidInput when `t` is outside the
permitted rule-type enumeration; for a permitted type it inserts a Rule and
returns a new integer ID for which `rule_exists` is true; `rule_exists`
returns false for any unknown ID. -/
theorem create_rule_spec (s : Store) (t : String) :
    (permitted_rule_types.contains t = false →
      create_rule t s = .error .InvalidInput) ∧
    (permitted_rule_types.contains t = true →
      ∃ s', create_rule t s = .ok (s.nextRuleId, s') ∧
        rule_exists s.nextRuleId s' = true) ∧
    (∀ i, (∀ r ∈ s.rules, r.id ≠ i) → rule_exists i s = false) := by
  refine ⟨fun h1 => ?_, fun h1 => ?_, fun i h => ?_⟩
  · have ht : t ∉ permitted_rule_types := by simpa using h1
    simp [create_rule, ht]
  · refine ⟨{ s with rules := s.rules ++ [{ id := s.nextRuleId, rtype := t }], nextRuleId := s.nextRuleId + 1 }, ?_, ?_⟩
    · rw [create_rule, if_neg (by rw [h1]; simp)]
    · exact (List.find?_isSome).mpr ⟨{ id := s.nextRuleId, rtype := t }, by simp, by simp⟩
  · have : s.rules.find? (fun r => r.id == i) = none := by
      rw [List.find?_eq_none]
      intro x hx
      simp [h x hx]
    simp [rule_exists, this]

/-- C10: in an empty store the first successful `create_policy` returns ID 1;
IDs are auto-assigned in increasing insertion order, and `get_all_policies`
and `get_all_assets` list URIs exactly in creation order. -/
theorem creation_order_spec :
    (∀ u, is_valid_uri u = true →
      ∃ s', create_policy u init_store = .ok (1, s')) ∧
    (∀ s u i s', create_policy u s = .ok (i, s') →
      i = s.nextPolicyId ∧ s'.nextPolicyId = i + 1 ∧
      get_all_policies s' = get_all_policies s ++ [u]) ∧
    (∀ s u p i s', add_asset u p s = .ok (i, s') →
      i = s.nextAssetId ∧ s'.nextAssetId = i + 1 ∧
      get_all_assets s' = get_all_assets s ++ [u]) := by
  refine ⟨fun u hu => ?_, fun s u i s' h => ?_, fun s u p i s' h => ?_⟩
  · refine ⟨{ init_store with policies := [blank_policy_row 1 u], nextPolicyId := 2 }, ?_⟩
    rw [create_policy, if_neg (by simp [hu]),
        if_neg (by simp [policy_exists, init_store])]
    rfl
  · rw [create_policy] at h
    split at h
    · cases h
    · split at h
      · cases h
      · rw [Except.ok.injEq, Prod.mk.injEq] at h
        obtain ⟨h1, h2⟩ := h
        subst h1
        subst h2
        exact ⟨rfl, rfl, by simp [get_all_policies, blank_policy_row]⟩
  · rw [add_asset] at h
    split at h
    · cases h
    · split at h
      · cases h
      · rw [Except.ok.injEq, Prod.mk.injEq] at h
        obtain ⟨h1, h2⟩ := h
        subst h1
        subst h2
        exact ⟨rfl, rfl, by simp [get_all_assets]⟩

/-- C2: `delete_rule(i)` fails with Conflict while the Rule is attached to
any Policy; once no Policy link remains it succeeds, `rule_exists i` becomes
false, and zero association rows remain for `i` in RULE_HAS_ACTION,
RULE_HAS_ASSIGNOR and RULE_HAS_ASSIGNEE. -/
theorem delete_rule_spec (s : Store) (i : Nat) :
    ((∃ p, (p, i) ∈ s.policy_has_rule) → delete_rule i s = .error .Conflict) ∧
    ((∀ p, (p, i) ∉ s.policy_has_rule) →
      ∃ s', delete_rule i s = .ok s' ∧
        rule_exists i s' = false ∧
        (∀ j ∈ s'.rule_has_action, j.1 ≠ i) ∧
        (∀ j ∈ s'.rule_has_assignor, j.1 ≠ i) ∧
        (∀ j ∈ s'.rule_has_assignee, j.1 ≠ i)) := by
  constructor
  · rintro ⟨p, hp⟩
    have hs : (s.policy_has_rule.find? (fun j => j.2 == i)).isSome = true :=
      (List.find?_isSome).mpr ⟨(p, i), hp, by simp⟩
    simp [delete_rule, hs]
  · intro h
    have hnone : s.policy_has_rule.find? (fun j => j.2 == i) = none := by
      rw [List.find?_eq_none]
      rintro ⟨p, q⟩ hx hq
      simp at hq
      subst hq
      exact h p hx
    refine ⟨{ s with rules := s.rules.filter (fun r => !(r.id == i)), rule_has_action := s.rule_has_action.filter (fun j => !(j.1 == i)), rule_has_assignor := s.rule_has_assignor.filter (fun j => !(j.1 == i)), rule_has_assignee := s.rule_has_assignee.filter (fun j => !(j.1 == i)) }, ?_, ?_, ?_, ?_, ?_⟩
    · rw [delete_rule, if_neg (by rw [hnone]; simp)]
    · have : (s.rules.filter (fun r => !(r.id == i))).find? (fun r => r.id == i) = none := by
        rw [List.find?_eq_none]
        intro x hx
        have := (List.mem_filter.mp hx).2
        simp at this
        simp [this]
      simp [rule_exists, this]
    · intro j hj
      have := (List.mem_filter.mp hj).2
      simpa using this
    · intro j hj
      have := (List.mem_filter.mp hj).2
      simpa using this
    · intro j hj
      have := (List.mem_filter.mp hj).2
      simpa using this

/-- C3: for an existing Policy `p`, `delete_policy p` succeeds; afterwards
the policy is gone, every Asset added under it is gone, and Rules are merely
detached: `rule_exists` is unchanged for every rule ID and no POLICY_HAS_RULE
row for `p` remains. -/
theorem delete_policy_cascade (s : Store) (p : String) (a : AssetRow)
    (hp : policy_exists p s = true)
    (ha : a ∈ s.assets)
    (hu : ∀ b ∈ s.assets, b.uri = a.uri →
      ∃ r ∈ s.policies, r.uri = p ∧ b.policy_id = r.id) :
    ∃ s', delete_policy p s = .ok s' ∧
      policy_exists p s' = false ∧
      asset_exists a.uri s' = false ∧
      (∀ i, rule_exists i s' = rule_exists i s) ∧
      (∀ r ∈ s.policies, r.uri = p → ∀ i, (r.id, i) ∉ s'.policy_has_rule) := by
  refine ⟨{ s with policies := s.policies.filter (fun r => !(r.uri == p)), assets := s.assets.filter (fun b => !(((s.policies.filter (fun r => r.uri == p)).map (fun r => r.id)).contains b.policy_id)), policy_has_rule := s.policy_has_rule.filter (fun j => !(((s.policies.filter (fun r => r.uri == p)).map (fun r => r.id)).contains j.1)) }, ?_, ?_, ?_, ?_, ?_⟩
  · rw [delete_policy, if_neg (by rw [hp]; simp)]
  · have : (s.policies.filter (fun r => !(r.uri == p))).find? (fun r => r.uri == p) = none := by
      rw [List.find?_eq_none]
      intro x hx
      have := (List.mem_filter.mp hx).2
      simp at this
      simp [this]
    simp [policy_exists, this]
  · have hfind : (s.assets.filter (fun b => !(((s.policies.filter (fun r => r.uri == p)).map (fun r => r.id)).contains b.policy_id))).find? (fun r => r.uri == a.uri) = none := by
      rw [List.find?_eq_none]
      intro b hb
      obtain ⟨hbmem, hbk⟩ := List.mem_filter.mp hb
      simp only [Bool.not_eq_true'] at hbk
      intro hbu
      simp only [beq_iff_eq] at hbu
      obtain ⟨r, hr, hrp, hrid⟩ := hu b hbmem hbu
      have hin : r.id ∈ (s.policies.filter (fun r => r.uri == p)).map (fun r => r.id) :=
        List.mem_map.mpr ⟨r, List.mem_filter.mpr ⟨hr, by simp [hrp]⟩, rfl⟩
      rw [← hrid] at hin
      simp [hin] at hbk
    simp only [asset_exists]
    rw [hfind]
    rfl
  · intro i
    rfl
  · intro r hr hrp i hmem
    have hbk := (List.mem_filter.mp hmem).2
    simp only [Bool.not_eq_true'] at hbk
    have hin : r.id ∈ (s.policies.filter (fun r => r.uri == p)).map (fun r => r.id) :=
      List.mem_map.mpr ⟨r, List.mem_filter.mpr ⟨hr, by simp [hrp]⟩, rfl⟩
    simp [hin] at hbk

/-- C7: `add_asset(u, p)` fails with NotFound when no Policy has URI `p`,
fails with Conflict when an Asset with URI `u` already exists, and otherwise
inserts the Asset, returns the next integer ID, and sets its POLICY_ID to the
internal ID of the Policy with URI `p`, observable through `get_asset`. -/
theorem add_asset_spec (s : Store) (u p : String) :
    (policy_exists p s = false → add_asset u p s = .error .NotFound) ∧
    (policy_exists p s = true → asset_exists u s = true →
      add_asset u p s = .error .Conflict) ∧
    (∀ pr, s.policies.find? (fun r => r.uri == p) = some pr →
      asset_exists u s = false →
      ∃ s', add_asset u p s = .ok (s.nextAssetId, s') ∧
        asset_exists u s' = true ∧
        get_asset u s' = .ok (.vdict [("ID", .vint s.nextAssetId), ("URI", .vstr u), ("POLICY_ID", .vint pr.id)])) := by
  refine ⟨fun h => ?_, fun h1 h2 => ?_, fun pr hf h2 => ?_⟩
  · have hnone : s.policies.find? (fun r => r.uri == p) = none :=
      find?_eq_none_of_isSome_false h
    rw [add_asset, hnone]
  · obtain ⟨pr, hf⟩ := Option.isSome_iff_exists.mp h1
    rw [add_asset, hf]
    simp [h2]
  · have hnone : s.assets.find? (fun r => r.uri == u) = none :=
      find?_eq_none_of_isSome_false h2
    refine ⟨{ s with assets := s.assets ++ [{ id := s.nextAssetId, uri := u, policy_id := pr.id }], nextAssetId := s.nextAssetId + 1 }, ?_, ?_, ?_⟩
    · rw [add_asset, hf]
      simp [h2]
    · exact (List.find?_isSome).mpr ⟨{ id := s.nextAssetId, uri := u, policy_id := pr.id }, by simp, by simp⟩
    · rw [get_asset]
      have : ((s.assets ++ [{ id := s.nextAssetId, uri := u, policy_id := pr.id }] : List AssetRow).find? (fun r => r.uri == u)) = some { id := s.nextAssetId, uri := u, policy_id := pr.id } := by
        rw [List.find?_append, hnone]
        simp
      rw [this]

/-- Setting a column never changes the row's ID. -/
theorem PolicyRow.setColumn_id (r : PolicyRow) (a v : String) :
    (r.setColumn a v).id = r.id := by
  unfold PolicyRow.setColumn
  split <;> rfl

/-- Setting a column never changes the row's URI. -/
theorem PolicyRow.setColumn_uri (r : PolicyRow) (a v : String) :
    (r.setColumn a v).uri = r.uri := by
  unfold PolicyRow.setColumn
  split <;> rfl

/-- Reading back the column just set yields the new value. -/
theorem PolicyRow.getColumn_setColumn_self (r : PolicyRow) {a : String} (v : String)
    (ha : a ∈ permitted_policy_attributes) :
    (r.setColumn a v).getColumn a = some v := by
  fin_cases ha <;> rfl

/-- Setting one permitted column leaves every other permitted column
untouched. -/
theorem PolicyRow.getColumn_setColumn_other (r : PolicyRow) {a b : String} (v : String)
    (ha : a ∈ permitted_policy_attributes) (hb : b ∈ permitted_policy_attributes)
    (hne : b ≠ a) :
    (r.setColumn a v).getColumn b = r.getColumn b := by
  fin_cases ha <;> fin_cases hb <;> first | rfl | exact absurd rfl hne

/-- How `set_policy_attribute u a v` relates an original POLICY row to its
updated image: ID and URI are untouched; rows of other policies are untouched
entirely; on the targeted row the column `a` now reads `v` and every other
permitted column is unchanged. -/
def updated_row_ok (u a v : String) (r r' : PolicyRow) : Prop :=
  r'.id = r.id ∧ r'.uri = r.uri ∧
  (r.uri ≠ u → r' = r) ∧
  (r.uri = u → r'.getColumn a = some v ∧
    ∀ b ∈ permitted_policy_attributes, b ≠ a → r'.getColumn b = r.getColumn b)

/-- C8: `set_policy_attribute(u, a, v)` fails with NotFound when no Policy
has URI `u`; fails with InvalidInput when `a` is outside the fixed allowed
attribute set; otherwise updates only the single column `a` of that policy's
row, leaving every other column of that row, all other policy rows, and every
other table unchanged. -/
theorem set_policy_attribute_spec (s : Store) (u a v : String) :
    (policy_exists u s = false → set_policy_attribute u a v s = .error .NotFound) ∧
    (policy_exists u s = true → a ∉ permitted_policy_attributes →
      set_policy_attribute u a v s = .error .InvalidInput) ∧
    (policy_exists u s = true → a ∈ permitted_policy_attributes →
      ∃ s', set_policy_attribute u a v s = .ok s' ∧
        s'.assets = s.assets ∧ s'.rules = s.rules ∧ s'.parties = s.parties ∧
        s'.actions = s.actions ∧
        s'.policy_has_rule = s.policy_has_rule ∧
        s'.rule_has_action = s.rule_has_action ∧
        s'.rule_has_assignor = s.rule_has_assignor ∧
        s'.rule_has_assignee = s.rule_has_assignee ∧
        List.Forall₂ (updated_row_ok u a v) s.policies s'.policies) := by
  refine ⟨fun h => ?_, fun h1 h2 => ?_, fun h1 h2 => ?_⟩
  · rw [set_policy_attribute, if_pos (by rw [h]; rfl)]
  · rw [set_policy_attribute, if_neg (by rw [h1]; simp), if_pos (by simpa using h2)]
  · refine ⟨{ s with policies := s.policies.map (fun r => if r.uri == u then r.setColumn a v else r) }, ?_, rfl, rfl, rfl, rfl, rfl, rfl, rfl, rfl, ?_⟩
    · rw [set_policy_attribute, if_neg (by rw [h1]; simp), if_neg (by simpa using h2)]
    · show List.Forall₂ (updated_row_ok u a v) s.policies (s.policies.map (fun r => if r.uri == u then r.setColumn a v else r))
      rw [List.forall₂_map_right_iff, List.forall₂_same]
      intro r _
      by_cases hr : r.uri = u
      · rw [if_pos (by simp [hr])]
        exact ⟨PolicyRow.setColumn_id r a v, PolicyRow.setColumn_uri r a v,
          fun hc => absurd hr hc,
          fun _ => ⟨PolicyRow.getColumn_setColumn_self r v h2,
            fun b hb hne => PolicyRow.getColumn_setColumn_other r v h2 hb hne⟩⟩
      · rw [if_neg (by simp [hr])]
        exact ⟨rfl, rfl, fun _ => rfl, fun hc => absurd hc hr⟩

/-- C9: the three error kinds InvalidInput, Conflict and NotFound all surface
as the same Python exception class, ValueError, from every operation, so a
caller cannot distinguish the kinds by exception type alone. -/
theorem errors_share_exception_class :
    (∀ e : DBError, pythonExceptionClass e = "ValueError") ∧
    (∀ s u e, create_policy u s = .error e → pythonExceptionClass e = "ValueError") ∧
    (∀ s u a v e, set_policy_attribute u a v s = .error e → pythonExceptionClass e = "ValueError") ∧
    (∀ s i p e, add_rule_to_policy i p s = .error e → pythonExceptionClass e = "ValueError") ∧
    (∀ s u e, get_party_id u s = .error e → pythonExceptionClass e = "ValueError") ∧
    (∀ e₁ e₂ : DBError, pythonExceptionClass e₁ = pythonExceptionClass e₂) :=
  ⟨fun _ => rfl, fun _ _ _ _ => rfl, fun _ _ _ _ _ _ => rfl,
   fun _ _ _ _ _ => rfl, fun _ _ _ _ => rfl, fun _ _ => rfl⟩

/-- An action mapping produced from an ACTION row always has exactly the
keys ID, LABEL, URI, DEFINITION. -/
theorem action_entry_ok_action_dict (a : ActionRow) :
    action_entry_ok (action_dict a) = true := rfl

/-- The ID a rule entry built by `rule_dict` carries is the rule row's ID. -/
theorem entry_id_rule_dict (ru : RuleRow) (s : Store) :
    entry_id (rule_dict ru s) = some ru.id := rfl

/-- Every rule entry built by `rule_dict` is well-shaped. -/
theorem rule_entry_ok_rule_dict (ru : RuleRow) (s : Store) :
    rule_entry_ok (rule_dict ru s) = true := by
  have h1 : (s.rule_has_action.filterMap (fun j =>
      if j.1 == ru.id then (s.actions.find? (fun a => a.id == j.2)).map action_dict else none)).all action_entry_ok = true :=
    all_filterMap_guard_map _ _ _ _ _ (fun b => rfl)
  have h2 : (s.rule_has_assignor.filterMap (fun j =>
      if j.1 == ru.id then (s.parties.find? (fun p => p.id == j.2)).map (fun p => Value.vstr p.uri) else none)).all is_str_value = true :=
    all_filterMap_guard_map _ _ _ _ _ (fun b => rfl)
  have h3 : (s.rule_has_assignee.filterMap (fun j =>
      if j.1 == ru.id then (s.parties.find? (fun p => p.id == j.2)).map (fun p => Value.vstr p.uri) else none)).all is_str_value = true :=
    all_filterMap_guard_map _ _ _ _ _ (fun b => rfl)
  show ((s.rule_has_action.filterMap (fun j =>
      if j.1 == ru.id then (s.actions.find? (fun a => a.id == j.2)).map action_dict else none)).all action_entry_ok &&
    (s.rule_has_assignor.filterMap (fun j =>
      if j.1 == ru.id then (s.parties.find? (fun p => p.id == j.2)).map (fun p => Value.vstr p.uri) else none)).all is_str_value &&
    (s.rule_has_assignee.filterMap (fun j =>
      if j.1 == ru.id then (s.parties.find? (fun p => p.id == j.2)).map (fun p => Value.vstr p.uri) else none)).all is_str_value) = true
  rw [h1, h2, h3]
  rfl

/-- Every `get_policy` result mapping built by `policy_dict` is well-shaped:
exactly the fixed policy attribute keys plus RULES, with well-shaped rule
entries. -/
theorem policy_result_ok_policy_dict (r : PolicyRow) (s : Store) :
    policy_result_ok (policy_dict r s) = true := by
  show (s.policy_has_rule.filterMap (fun j =>
      if j.1 == r.id then (s.rules.find? (fun ru => ru.id == j.2)).map (fun ru => rule_dict ru s) else none)).all rule_entry_ok = true
  exact all_filterMap_guard_map _ _ _ _ _ (fun ru => rule_entry_ok_rule_dict ru s)

/-- The RULES entries of `policy_dict r s` carry exactly the rule IDs linked
to `r` in join insertion order. -/
theorem rule_ids_of_policy_dict (r : PolicyRow) (s : Store) :
    rule_ids_of (policy_dict r s) =
      s.policy_has_rule.filterMap (fun j =>
        if j.1 == r.id && rule_exists j.2 s then some j.2 else none) := by
  show (s.policy_has_rule.filterMap (fun j =>
      if j.1 == r.id then (s.rules.find? (fun ru => ru.id == j.2)).map (fun ru => rule_dict ru s) else none)).filterMap entry_id = _
  rw [List.filterMap_filterMap]
  congr 1
  funext j
  by_cases hj : (j.1 == r.id) = true
  · rw [if_pos hj]
    cases hfind : s.rules.find? (fun ru => ru.id == j.2) with
    | none =>
      have hex : rule_exists j.2 s = false := by rw [rule_exists, hfind]; rfl
      simp [hex]
    | some ru =>
      have hid : ru.id = j.2 := by simpa using List.find?_some hfind
      have hex : rule_exists j.2 s = true := by rw [rule_exists, hfind]; rfl
      show entry_id (rule_dict ru s) = _
      rw [entry_id_rule_dict, hex, hj, hid]
      rfl
  · have hj' : (j.1 == r.id) = false := by simpa using hj
    rw [if_neg hj]
    simp [hj']

/-- C1: for every URI of an existing Policy, `get_policy` returns a mapping
with exactly the fixed policy attribute keys plus RULES; each rule entry
carries its ID and TYPE, an ACTIONS list of full action mappings, and flat
ASSIGNORS and ASSIGNEES URI-string lists; the RULES entries follow join
insertion order.  `get_policy` fails with NotFound when no Policy has the
URI. -/
theorem get_policy_spec (s : Store) (u : String) :
    (policy_exists u s = false → get_policy u s = .error .NotFound) ∧
    (policy_exists u s = true →
      ∃ v, get_policy u s = .ok v ∧ policy_result_ok v = true ∧
        rule_ids_of v = linked_rule_ids u s) := by
  constructor
  · intro h
    rw [get_policy, find?_eq_none_of_isSome_false h]
  · intro h
    obtain ⟨pr, hpr⟩ := Option.isSome_iff_exists.mp h
    refine ⟨policy_dict pr s, ?_, policy_result_ok_policy_dict pr s, ?_⟩
    · rw [get_policy, hpr]
    · rw [rule_ids_of_policy_dict, linked_rule_ids, hpr]

/-! ### Witnesses: the claims instantiated at the concrete scenario data -/

/-- Witness for C1 at the populated §8 scenario policy and at an absent
URI. -/
theorem get_policy_spec_witness :
    get_policy "https://example.com#absent" init_store = .error .NotFound ∧
    (∃ v, get_policy "https://example.com#policy" scenario_store = .ok v ∧
      policy_result_ok v = true ∧
      rule_ids_of v = linked_rule_ids "https://example.com#policy" scenario_store) :=
  ⟨(get_policy_spec init_store "https://example.com#absent").1 rfl,
   (get_policy_spec scenario_store "https://example.com#policy").2 rfl⟩

/-- Witness for C2: deletion conflicts while the scenario rule is linked, and
succeeds with full join-table cleanup on an unlinked rule. -/
theorem delete_rule_spec_witness :
    delete_rule 1 scenario_store = .error .Conflict ∧
    (∃ s', delete_rule 1 lone_rule_store = .ok s' ∧
      rule_exists 1 s' = false ∧
      (∀ j ∈ s'.rule_has_action, j.1 ≠ 1) ∧
      (∀ j ∈ s'.rule_has_assignor, j.1 ≠ 1) ∧
      (∀ j ∈ s'.rule_has_assignee, j.1 ≠ 1)) :=
  ⟨(delete_rule_spec scenario_store 1).1 ⟨1, by decide⟩,
   (delete_rule_spec lone_rule_store 1).2 (fun p h => List.not_mem_nil (p, 1) h)⟩

/-- Witness for C3 at the scenario policy and its asset. -/
theorem delete_policy_cascade_witness :
    ∃ s', delete_policy "https://example.com#policy" scenario_store = .ok s' ∧
      policy_exists "https://example.com#policy" s' = false ∧
      asset_exists "https://example.com#asset" s' = false ∧
      (∀ i, rule_exists i s' = rule_exists i scenario_store) ∧
      (∀ r ∈ scenario_store.policies, r.uri = "https://example.com#policy" →
        ∀ i, (r.id, i) ∉ s'.policy_has_rule) :=
  delete_policy_cascade scenario_store "https://example.com#policy"
    { id := 1, uri := "https://example.com#asset", policy_id := 1 }
    rfl (by decide) (by decide)

/-- Witness for C4: invalid URI, duplicate URI, and a fresh creation. -/
theorem create_policy_spec_witness :
    create_policy "not a uri" init_store = .error .InvalidInput ∧
    create_policy "https://example.com#policy" scenario_store = .error .Conflict ∧
    (∃ s', create_policy "https://example.com#fresh" init_store = .ok (1, s') ∧
      policy_exists "https://example.com#fresh" s' = true ∧
      s'.policies = init_store.policies ++ [blank_policy_row 1 "https://example.com#fresh"] ∧
      ∀ b ∈ permitted_policy_attributes,
        (blank_policy_row 1 "https://example.com#fresh").getColumn b = none) :=
  ⟨(create_policy_spec init_store "not a uri").1 rfl,
   (create_policy_spec scenario_store "https://example.com#policy").2.1 rfl rfl,
   (create_policy_spec init_store "https://example.com#fresh").2.2 rfl rfl⟩

/-- Witness for C5 at an absent URI on a fresh database. -/
theorem delete_policy_not_found_witness :
    delete_policy "https://example.com#absent" init_store = .error .NotFound :=
  delete_policy_not_found init_store "https://example.com#absent" rfl

/-- Witness for C6: invalid rule type, permitted rule type, unknown ID. -/
theorem create_rule_spec_witness :
    create_rule "invalid_type" init_store = .error .InvalidInput ∧
    (∃ s', create_rule "http://www.w3.org/ns/odrl/2/permission" init_store = .ok (1, s') ∧
      rule_exists 1 s' = true) ∧
    rule_exists 1 init_store = false :=
  ⟨(create_rule_spec init_store "invalid_type").1 rfl,
   (create_rule_spec init_store "http://www.w3.org/ns/odrl/2/permission").2.1 rfl,
   (create_rule_spec init_store "invalid_type").2.2 1 (by decide)⟩

/-- Witness for C7: missing policy, duplicate asset, and a fresh asset whose
POLICY_ID is the policy's internal ID. -/
theorem add_asset_spec_witness :
    add_asset "https://example.com#asset" "https://example.com#policy" init_store = .error .NotFound ∧
    add_asset "https://example.com#asset" "https://example.com#policy" scenario_store = .error .Conflict ∧
    (∃ s', add_asset "https://example.com#asset2" "https://example.com#policy" scenario_store = .ok (2, s') ∧
      asset_exists "https://example.com#asset2" s' = true ∧
      get_asset "https://example.com#asset2" s' = .ok (.vdict [("ID", .vint 2), ("URI", .vstr "https://example.com#asset2"), ("POLICY_ID", .vint 1)])) :=
  ⟨(add_asset_spec init_store "https://example.com#asset" "https://example.com#policy").1 rfl,
   (add_asset_spec scenario_store "https://example.com#asset" "https://example.com#policy").2.1 rfl rfl,
   (add_asset_spec scenario_store "https://example.com#asset2" "https://example.com#policy").2.2
     (blank_policy_row 1 "https://example.com#policy") rfl rfl⟩

/-- Witness for C8: absent policy, disallowed attribute, and a permitted
single-column update on the scenario policy. -/
theorem set_policy_attribute_spec_witness :
    set_policy_attribute "https://example.com#absent" "TYPE" "http://creativecommons.org/ns#License" init_store = .error .NotFound ∧
    set_policy_attribute "https://example.com#policy" "NONEXISTENT" "x" scenario_store = .error .InvalidInput ∧
    (∃ s', set_policy_attribute "https://example.com#policy" "TYPE" "http://creativecommons.org/ns#License" scenario_store = .ok s' ∧
      s'.assets = scenario_store.assets ∧ s'.rules = scenario_store.rules ∧
      s'.parties = scenario_store.parties ∧ s'.actions = scenario_store.actions ∧
      s'.policy_has_rule = scenario_store.policy_has_rule ∧
      s'.rule_has_action = scenario_store.rule_has_action ∧
      s'.rule_has_assignor = scenario_store.rule_has_assignor ∧
      s'.rule_has_assignee = scenario_store.rule_has_assignee ∧
      List.Forall₂ (updated_row_ok "https://example.com#policy" "TYPE" "http://creativecommons.org/ns#License")
        scenario_store.policies s'.policies) :=
  ⟨(set_policy_attribute_spec init_store "https://example.com#absent" "TYPE" "http://creativecommons.org/ns#License").1 rfl,
   (set_policy_attribute_spec scenario_store "https://example.com#policy" "NONEXISTENT" "x").2.1 rfl (by decide),
   (set_policy_attribute_spec scenario_store "https://example.com#policy" "TYPE" "http://creativecommons.org/ns#License").2.2 rfl (by decide)⟩

/-- Witness for C9 at one failing call of each listed operation. -/
theorem errors_share_exception_class_witness :
    pythonExceptionClass DBError.Conflict = "ValueError" ∧
    pythonExceptionClass DBError.InvalidInput = "ValueError" ∧
    pythonExceptionClass DBError.NotFound = "ValueError" ∧
    pythonExceptionClass DBError.NotFound = "ValueError" ∧
    pythonExceptionClass DBError.NotFound = "ValueError" ∧
    pythonExceptionClass DBError.InvalidInput = pythonExceptionClass DBError.Conflict :=
  ⟨errors_share_exception_class.1 DBError.Conflict,
   errors_share_exception_class.2.1 init_store "not a uri" DBError.InvalidInput rfl,
   errors_share_exception_class.2.2.1 init_store "https://example.com#absent" "TYPE" "x" DBError.NotFound rfl,
   errors_share_exception_class.2.2.2.1 init_store 1 "https://example.com#absent" DBError.NotFound rfl,
   errors_share_exception_class.2.2.2.2.1 init_store "https://example.com#absent" DBError.NotFound rfl,
   errors_share_exception_class.2.2.2.2.2 DBError.InvalidInput DBError.Conflict⟩

/-- Witness for C10: first policy gets ID 1; listing follows creation order
for policies and assets. -/
theorem creation_order_spec_witness :
    (∃ s', create_policy "https://example.com#test" init_store = .ok (1, s')) ∧
    (1 = init_store.nextPolicyId ∧ first_policy_store.nextPolicyId = 1 + 1 ∧
      get_all_policies first_policy_store = get_all_policies init_store ++ ["https://example.com#test"]) ∧
    (2 = scenario_store.nextAssetId ∧ second_asset_store.nextAssetId = 2 + 1 ∧
      get_all_assets second_asset_store = get_all_assets scenario_store ++ ["https://example.com#asset2"]) :=
  ⟨creation_order_spec.1 "https://example.com#test" rfl,
   creation_order_spec.2.1 init_store "https://example.com#test" 1 first_policy_store rfl,
   creation_order_spec.2.2 scenario_store "https://example.com#asset2" "https://example.com#policy" 2 second_asset_store rfl⟩

end PolicyStore
